import Mathlib

/-!
Verification of the CVAT single-frame annotations-actions module
(`annotations-actions.ts`): the action registry (`registerAction`),
the parameter resolver inside `runSingleFrameChain`, the built-in
`RemoveFilteredShapes` action, and the frame-iteration / commit pipeline
of `runSingleFrameChain`.

Modelling conventions:
* Machine numbers that matter (frame indices, percentages, client ids)
  are `Nat`/`Int`.  JavaScript numeric coercion (`+x` on a string) is
  modelled by `Cvat.toNumber` over a `JSNum` that has an explicit `nan`.
* Fallible asynchronous collaborators (the audit logger, the frame-data
  provider `frames.get`, `getAnnotations`, each action's `init`/`run`)
  are modelled as `Except String`-valued functions; the filter argument
  of `getAnnotations` is folded into the environment's `states` function.
* The cooperative cancellation predicate is modelled as
  `cancelled : Nat → Bool`, indexed by the ordinal of the poll (the
  value the stateful JS closure returns at its n-th call).
* The lodash `throttle` wrapper is time based and outside a functional
  embedding; the model records the full sequence of `wrappedOnProgress`
  invocations (the throttled callback receives a subsequence of it that
  always includes the leading and trailing call).
-/

set_option maxHeartbeats 1000000
set_option maxRecDepth 8000

namespace Cvat

/-- A JavaScript number as far as this module observes it: either `NaN`
or an exact value (rationals are enough for the decimal literals the
parameter resolver coerces). -/
inductive JSNum where
  | nan : JSNum
  | val (q : ℚ) : JSNum
deriving DecidableEq, Repr

/-- Numeric value of a list of decimal digit characters, most
significant first. -/
def digitsVal (cs : List Char) : Nat :=
  cs.foldl (fun a c => a * 10 + (c.toNat - 48)) 0

/-- Parse an unsigned JavaScript decimal literal (`digits`,
`digits.digits`, `.digits`) into a rational; `none` when the characters
are not such a literal. -/
def parseUnsigned (cs : List Char) : Option ℚ :=
  let intPart := cs.takeWhile Char.isDigit
  let rest := cs.dropWhile Char.isDigit
  match rest with
  | [] =>
    if intPart.isEmpty then none else some (digitsVal intPart)
  | '.' :: fracPart =>
    if fracPart.all Char.isDigit && !(intPart.isEmpty && fracPart.isEmpty) then
      some ((digitsVal intPart : ℚ) + (digitsVal fracPart : ℚ) / (10 ^ fracPart.length))
    else none
  | _ => none

/-- Strip leading and trailing whitespace from a character list. -/
def jsTrim (cs : List Char) : List Char :=
  ((cs.dropWhile Char.isWhitespace).reverse.dropWhile Char.isWhitespace).reverse

/-- JavaScript `ToNumber` on strings, as invoked by the unary `+` at
line 208 of the source, restricted to the fragment the resolver can
meet: surrounding whitespace is trimmed, an empty (or all-whitespace)
string converts to `0`, an optionally signed decimal literal converts
to its value, and anything else converts to `NaN`.  (Hex/exponent/
`Infinity` forms are outside the fragment and not used by any claim.) -/
def toNumber (s : String) : JSNum :=
  let t := jsTrim s.data
  if t.isEmpty then .val 0
  else
    let core :=
      match t with
      | '+' :: rest => parseUnsigned rest
      | '-' :: rest => (parseUnsigned rest).map Neg.neg
      | cs => parseUnsigned cs
    match core with
    | some q => .val q
    | none => .nan

/-- The `ActionParameterType` enum from the source: `SELECT` or `NUMBER`. -/
inductive ActionParameterType where
  | select : ActionParameterType
  | number : ActionParameterType
deriving DecidableEq, Repr

/-- One entry of a declared `ActionParameters` record. -/
structure ParamDecl where
  type : ActionParameterType
  values : List String
  defaultValue : String
deriving DecidableEq, Repr

/-- A resolved parameter value: `string | number`. -/
inductive ParamValue where
  | str (s : String) : ParamValue
  | num (n : JSNum) : ParamValue
deriving DecidableEq, Repr

/-- The parameter resolution performed per action at lines 199–216 of
the source: a `null` schema yields an empty map; otherwise each declared
entry takes the caller-supplied value when the key is present
(`Object.hasOwn`) and the declared default otherwise, coercing with
unary `+` when the declared type is `NUMBER`.  Records are modelled as
association lists in insertion order. -/
def resolveParameters (declared : Option (List (String × ParamDecl)))
    (setupValues : List (String × String)) : List (String × ParamValue) :=
  match declared with
  | none => []
  | some decls =>
    decls.map (fun entry =>
      (entry.1,
        if entry.2.type = ActionParameterType.number then
          ParamValue.num (toNumber ((setupValues.lookup entry.1).getD entry.2.defaultValue))
        else
          ParamValue.str ((setupValues.lookup entry.1).getD entry.2.defaultValue)))

/-- A serialized shape as this pipeline observes it: the client id
(`none` when missing — `Number.isInteger(undefined)` is `false`), the
server id that `omit(shape, 'id')` strips, and the remaining fields
(type discriminator, geometry, …) collapsed into an opaque payload. -/
structure Shape where
  clientID : Option Int
  id : Option Int
  payload : Nat
deriving DecidableEq, Repr

/-- The `omit(shape, 'id')` call at line 263 of the source. -/
def stripID (s : Shape) : Shape := { s with id := none }

/-- The exported collection snapshot (`getCollection(instance).export()`):
shapes plus the `tracks`/`tags` sequences the pipeline passes through
opaquely. -/
structure ExportedCollection where
  shapes : List Shape
  tracks : Nat
  tags : Nat
deriving DecidableEq, Repr

/-- The `ObjectType` values distinguished by the pipeline. -/
inductive ObjectType where
  | shape : ObjectType
  | track : ObjectType
  | tag : ObjectType
deriving DecidableEq, Repr

/-- An object state returned by `getAnnotations`: its type discriminator
and client id. -/
structure ObjState where
  objectType : ObjectType
  clientID : Int
deriving DecidableEq, Repr

/-- The id-collection reduce at lines 232–237: client ids of the
SHAPE-typed states, in order. -/
def shapeIDs (states : List ObjState) : List Int :=
  states.filterMap (fun st =>
    if st.objectType = ObjectType.shape then some st.clientID else none)

/-- The per-frame slice predicate at lines 240–243: a snapshot shape is
picked when its client id is among the filtered frame ids (a missing
client id matches nothing, as `includes` compares against numbers). -/
def shapeMatches (ids : List Int) (s : Shape) : Bool :=
  match s.clientID with
  | some n => ids.contains n
  | none => false

/-- The carry-over predicate at line 274:
`Number.isInteger(shape.clientID) && !modifiedCollectionIDs.shapes.includes(shape.clientID)`. -/
def carryPred (modifiedIDs : List Int) (s : Shape) : Bool :=
  match s.clientID with
  | some n => !(modifiedIDs.contains n)
  | none => false

/-- Frame data returned by the frame-data provider. -/
structure FrameData where
  width : Int
  height : Int
  number : Int
  deleted : Bool
deriving DecidableEq, Repr

/-- An action of the chain: `BaseSingleFrameAction`'s observable
surface.  `init` receives the resolved parameter map; `run` receives
the frame-local shape collection and the frame metadata; both may fail
(a rejected promise).  `destroy` has no observable effect beyond being
invoked, which the run result records. -/
structure Action where
  name : String
  parameters : Option (List (String × ParamDecl))
  init : List (String × ParamValue) → Except String Unit
  run : List Shape → FrameData → Except String (List Shape)

/-- The built-in `RemoveFilteredShapes` action (lines 100–120):
parameterless, no-op `init`, and a `run` that unconditionally returns an
empty shape collection. -/
def removeFilteredShapes : Action where
  name := "Remove filtered shapes"
  parameters := none
  init := fun _ => Except.ok ()
  run := fun _ _ => Except.ok []

/-- The `ArgumentError` raised by `registerAction`. -/
inductive RegistryError where
  | argumentError (msg : String) : RegistryError
deriving Repr

/-- A candidate passed to `registerAction`: either an actual
`BaseSingleFrameAction` instance or any other JavaScript value
(failing the `instanceof` check). -/
inductive RegistrationCandidate where
  | action (a : Action) : RegistrationCandidate
  | notAnAction (v : Nat) : RegistrationCandidate

/-- Function `registerAction` (lines 138–149) over an explicit registry state:
reject non-instances and duplicate names (case-sensitive string
equality) with `ArgumentError`, otherwise append. -/
def registerAction (registry : List Action) (c : RegistrationCandidate) :
    Except RegistryError (List Action) :=
  match c with
  | .notAnAction _ =>
    .error (.argumentError "Provided action is not instance of BaseSingleFrameAction")
  | .action a =>
    if (registry.map Action.name).contains a.name then
      .error (.argumentError "Action name must be unique")
    else
      .ok (registry ++ [a])

/-- Function `listActions` (lines 130–132): a defensive copy of the registry. -/
def listActions (registry : List Action) : List Action := registry

/-- The registry after the module-load registration of the built-in
action at line 154. -/
def initialRegistry : List Action := [removeFilteredShapes]

/-- The external collaborators of one run: the exported snapshot, the
frame-data provider, the `getAnnotations` evaluator (with the caller's
`filters` folded in), and the outcome of the initial audit-log call. -/
structure Env where
  exported : ExportedCollection
  frames : Nat → Except String FrameData
  states : Nat → Except String (List ObjState)
  logResult : Except String Unit

/-- Sequential composition of the chain on one frame (lines 246–255):
each action receives the previous action's output collection together
with the frame metadata. -/
def chainRun (chain : List Action) (shapes : List Shape) (fd : FrameData) :
    Except String (List Shape) :=
  match chain with
  | [] => Except.ok shapes
  | a :: rest =>
    match a.run shapes fd with
    | .error e => .error e
    | .ok out => chainRun rest out fd

/-- The `Promise.all` over the per-action `init` calls (lines 199–216):
every action is initialized with its resolved parameters; the model
reports the first failure in chain order.  `actionParameters` entries
are consumed positionally. -/
def initAll (chain : List Action) (actionParameters : List (List (String × String))) :
    Except String Unit :=
  match chain with
  | [] => Except.ok ()
  | a :: rest =>
    match a.init (resolveParameters a.parameters (actionParameters.headD [])) with
    | .error e => .error e
    | .ok _ => initAll rest actionParameters.tail

/-- The exact rational value `ceil((k / t) * 100)` for natural `k` and
positive `t` — the ceiling-rounded percentage named by the spec.  The
program computes the percentage in IEEE-754 doubles instead, which is
modelled by `jsPct` below; the two differ (e.g. `jsPct 7 100 = 8` while
`ceilPct 7 100 = 7`). -/
def ceilPct (k t : Nat) : Nat := (100 * k + (t - 1)) / t

/-- Round the rational `N / D` (with `D > 0`) to the nearest integer,
ties to even — the integer-arithmetic core of IEEE-754
round-to-nearest-even. -/
def roundHalfEven (N D : Nat) : Nat :=
  if 2 * (N % D) < D then N / D
  else if D < 2 * (N % D) then N / D + 1
  else if (N / D) % 2 = 0 then N / D else N / D + 1

/-- The number of doublings needed to bring `a` up to at least `tgt`
(0 when the fuel runs out; the fuel used below always suffices). -/
def findShift : Nat → Nat → Nat → Nat
  | 0, _, _ => 0
  | fuel + 1, a, tgt =>
    if tgt ≤ a then 0
    else if a = 0 then 0
    else 1 + findShift fuel (2 * a) tgt

/-- The scaling exponent that brings `a / b` into the IEEE-754 double
significand range `[2^52, 2^53)`. -/
def shiftOf (a b : Nat) : Nat := findShift (53 + b) a (2 ^ 52 * b)

/-- The rounded 53-bit significand of `a / b`. -/
def mantOf (a b : Nat) : Nat := roundHalfEven (a * 2 ^ shiftOf a b) b

/-- The exact ceiling of `n / d` in natural arithmetic (`Math.ceil` is
exact on doubles). -/
def ceilNatDiv (n d : Nat) : Nat := (n + (d - 1)) / d

/-- The per-frame percentage of line 257,
`Math.ceil(((frame - frameFrom) / totalFrames) * 100)`, computed the
way IEEE-754 double arithmetic does: round the exact quotient `k / t`
to the nearest double `mantOf k t / 2 ^ shiftOf k t`, multiply by 100
and round again to the nearest double, then take the exact ceiling.
All stages stay in natural arithmetic (rounding does not depend on the
fraction being reduced), so the function evaluates by kernel
reduction. -/
def jsPct (k t : Nat) : Nat :=
  ceilNatDiv (mantOf (mantOf k t * 100) (2 ^ shiftOf k t))
    (2 ^ shiftOf (mantOf k t * 100) (2 ^ shiftOf k t))

/-- The mutable state threaded through the frame loop: the
`wrappedOnProgress` invocations so far, the per-frame reports (frame
number, percentage) among them, the number of cancellation polls
performed, the handled buffer and the handled-id set. -/
structure LoopState where
  progress : List (String × Nat)
  frameReports : List (Nat × Nat)
  polls : Nat
  handled : List Shape
  modifiedIDs : List Int
deriving DecidableEq, Repr

/-- How the frame loop ended: ran every frame, observed a positive
cancellation poll, or propagated an error. -/
inductive LoopExit where
  | next (st : LoopState) : LoopExit
  | cancelledAt (st : LoopState) : LoopExit
  | failed (e : String) (st : LoopState) : LoopExit
deriving DecidableEq, Repr

/-- The frame iteration of lines 224–266: fetch frame data, skip
deleted frames, slice the snapshot by the filtered shape-state ids, run
the chain, report the double-arithmetic percentage `jsPct`, poll
cancellation, then accumulate the id-stripped outputs and the frame's
id set. -/
def frameLoop (env : Env) (chain : List Action) (cancelled : Nat → Bool)
    (frameFrom total : Nat) : List Nat → LoopState → LoopExit
  | [], st => .next st
  | f :: fs, st =>
    match env.frames f with
    | .error e => .failed e st
    | .ok fd =>
      if fd.deleted then
        frameLoop env chain cancelled frameFrom total fs st
      else
        match env.states f with
        | .error e => .failed e st
        | .ok sts =>
          match chainRun chain (env.exported.shapes.filter (shapeMatches (shapeIDs sts))) fd with
          | .error e => .failed e st
          | .ok outShapes =>
            if cancelled st.polls then
              .cancelledAt
                { progress := st.progress ++ [("Actions are running", jsPct (f - frameFrom) total)]
                  frameReports := st.frameReports ++ [(f, jsPct (f - frameFrom) total)]
                  polls := st.polls + 1
                  handled := st.handled
                  modifiedIDs := st.modifiedIDs }
            else
              frameLoop env chain cancelled frameFrom total fs
                { progress := st.progress ++ [("Actions are running", jsPct (f - frameFrom) total)]
                  frameReports := st.frameReports ++ [(f, jsPct (f - frameFrom) total)]
                  polls := st.polls + 1
                  handled := st.handled ++ outShapes.map stripID
                  modifiedIDs := st.modifiedIDs ++ shapeIDs sts }

/-- What the commit pass imported, instrumented with the pieces it was
assembled from: the handled buffer, the handled-id set, and the shapes
the carry-over pass at lines 273–277 appended. -/
structure CommitInfo where
  handled : List Shape
  modifiedIDs : List Int
  carried : List Shape
  shapes : List Shape
  tracks : Nat
  tags : Nat
deriving DecidableEq, Repr

/-- The observable outcome of one `runSingleFrameChain` call. -/
structure RunResult where
  progress : List (String × Nat)
  frameReports : List (Nat × Nat)
  polls : Nat
  destroyed : List String
  committed : Option CommitInfo
  cleared : Bool
  eventClosed : Bool
  error : Option String
deriving DecidableEq, Repr

/-- The inclusive frame range `frameFrom..frameTo` of the `for` loop. -/
def frameRange (frameFrom frameTo : Nat) : List Nat :=
  List.range' frameFrom (frameTo + 1 - frameFrom)

/-- The `finally` block of lines 288–291: emit `Finalizing / 100` and
destroy every action of the chain. -/
def finalize (chain : List Action) (st : LoopState) (committed : Option CommitInfo)
    (cleared eventClosed : Bool) (err : Option String) : RunResult :=
  { progress := st.progress ++ [("Finalizing", 100)]
    frameReports := st.frameReports
    polls := st.polls
    destroyed := chain.map Action.name
    committed := committed
    cleared := cleared
    eventClosed := eventClosed
    error := err }

/-- The loop state right after the `Actions initialization` message and
the first cancellation poll. -/
def initState : LoopState :=
  { progress := [("Actions initialization", 0)]
    frameReports := []
    polls := 1
    handled := []
    modifiedIDs := [] }

/-- The state after the `Commiting handled objects` message and the
pre-commit cancellation poll. -/
def commitState (st : LoopState) : LoopState :=
  { progress := st.progress ++ [("Commiting handled objects", 100)]
    frameReports := st.frameReports
    polls := st.polls + 1
    handled := st.handled
    modifiedIDs := st.modifiedIDs }

/-- The collection assembled by the carry-over pass (lines 273–277) and
imported at lines 279–285. -/
def mkCommitInfo (env : Env) (st : LoopState) : CommitInfo :=
  { handled := st.handled
    modifiedIDs := st.modifiedIDs
    carried := env.exported.shapes.filter (carryPred st.modifiedIDs)
    shapes := st.handled ++ env.exported.shapes.filter (carryPred st.modifiedIDs)
    tracks := env.exported.tracks
    tags := env.exported.tags }

/-- Function `runSingleFrameChain` (lines 167–292) as a pure function from the
environment, the chain, the positional parameter maps, the frame range
and the cancellation poll answers to its observable outcome.  The
initial audit-log call happens before the `try`, so its failure
propagates without running the `finally` block. -/
def runSingleFrameChain (env : Env) (chain : List Action)
    (actionParameters : List (List (String × String)))
    (frameFrom frameTo : Nat) (cancelled : Nat → Bool) : RunResult :=
  match env.logResult with
  | .error e =>
    { progress := []
      frameReports := []
      polls := 0
      destroyed := []
      committed := none
      cleared := false
      eventClosed := false
      error := some e }
  | .ok _ =>
    if cancelled 0 then
      finalize chain initState none false false none
    else
      match initAll chain actionParameters with
      | .error e => finalize chain initState none false false (some e)
      | .ok _ =>
        match frameLoop env chain cancelled frameFrom (frameTo + 1 - frameFrom)
          (frameRange frameFrom frameTo) initState with
        | .failed e st => finalize chain st none false false (some e)
        | .cancelledAt st => finalize chain st none false false none
        | .next st =>
          if cancelled st.polls then
            finalize chain (commitState st) none false false none
          else
            finalize chain (commitState st) (some (mkCommitInfo env st)) true true none

/-- Function `runActions` (lines 305–326) delegates to `runSingleFrameChain`. -/
def runActions (env : Env) (chain : List Action)
    (actionParameters : List (List (String × String)))
    (frameFrom frameTo : Nat) (cancelled : Nat → Bool) : RunResult :=
  runSingleFrameChain env chain actionParameters frameFrom frameTo cancelled

/-- Pure description of one frame's id contribution (empty for frames
the provider flags deleted, or that error — the latter never commits). -/
def frameIDsOf (env : Env) (f : Nat) : List Int :=
  match env.frames f with
  | .error _ => []
  | .ok fd =>
    if fd.deleted then []
    else
      match env.states f with
      | .error _ => []
      | .ok sts => shapeIDs sts

/-- Pure description of one frame's frame-local working collection. -/
def frameLocalShapes (env : Env) (f : Nat) : List Shape :=
  match env.frames f with
  | .error _ => []
  | .ok fd =>
    if fd.deleted then []
    else
      match env.states f with
      | .error _ => []
      | .ok sts => env.exported.shapes.filter (shapeMatches (shapeIDs sts))

/-- Pure description of one frame's contribution to the handled buffer:
the chain's output on the frame-local collection, id-stripped. -/
def frameHandledOf (env : Env) (chain : List Action) (f : Nat) : List Shape :=
  match env.frames f with
  | .error _ => []
  | .ok fd =>
    if fd.deleted then []
    else
      match env.states f with
      | .error _ => []
      | .ok sts =>
        match chainRun chain (env.exported.shapes.filter (shapeMatches (shapeIDs sts))) fd with
        | .error _ => []
        | .ok out => out.map stripID

/-! ### Concrete fixtures used by witnesses and counterexamples -/

/-- A snapshot shape with client id 1 and a server id. -/
def sA : Shape := { clientID := some 1, id := some 5, payload := 0 }

/-- A snapshot shape with client id 2, outside every filter below. -/
def sB : Shape := { clientID := some 2, id := none, payload := 1 }

/-- A snapshot shape with no client id. -/
def sC : Shape := { clientID := none, id := none, payload := 2 }

/-- One non-deleted frame 0 whose filtered states pick out `sA`. -/
def envId : Env :=
  { exported := { shapes := [sA, sB, sC], tracks := 7, tags := 8 }
    frames := fun f => .ok { width := 10, height := 10, number := (f : Int), deleted := false }
    states := fun f => if f = 0 then .ok [{ objectType := .shape, clientID := 1 }] else .ok []
    logResult := .ok () }

/-- Every frame is flagged deleted; the snapshot holds only `sA`. -/
def envDel : Env :=
  { exported := { shapes := [sA], tracks := 0, tags := 0 }
    frames := fun f => .ok { width := 10, height := 10, number := (f : Int), deleted := true }
    states := fun _ => .ok []
    logResult := .ok () }

/-- The frame datum `envDel` serves for frame 0. -/
def fdDel : FrameData := { width := 10, height := 10, number := 0, deleted := true }

/-- An environment whose initial audit-log call rejects. -/
def envLogFail : Env :=
  { exported := { shapes := [], tracks := 0, tags := 0 }
    frames := fun _ => .error "frames"
    states := fun _ => .error "states"
    logResult := .error "audit log rejected" }

/-- The commit produced by the empty chain over `envId`, frames 0–0. -/
def ciId : CommitInfo :=
  { handled := [stripID sA]
    modifiedIDs := [1]
    carried := [sB]
    shapes := [stripID sA, sB]
    tracks := 7
    tags := 8 }

/-- The commit produced by `[removeFilteredShapes]` over `envId`. -/
def ciDiscard : CommitInfo :=
  { handled := []
    modifiedIDs := [1]
    carried := [sB]
    shapes := [sB]
    tracks := 7
    tags := 8 }

/-- The commit produced by the empty chain over `envDel`. -/
def ciDel : CommitInfo :=
  { handled := []
    modifiedIDs := []
    carried := [sA]
    shapes := [sA]
    tracks := 0
    tags := 0 }

/-! ### Helper lemmas about the frame loop -/

/-- Spot checks of the double-arithmetic percentage: these are the
values IEEE-754 doubles produce, including `7 / 100 → 8` where the
double result `7.000000000000001` exceeds the exact ceiling
`ceilPct 7 100 = 7`. -/
lemma jsPct_values :
    jsPct 0 1 = 0 ∧ jsPct 1 2 = 50 ∧ jsPct 7 100 = 8 ∧ jsPct 14 100 = 15 ∧
    jsPct 50 100 = 50 ∧ jsPct 99 100 = 99 ∧ jsPct 11 20 = 56 ∧ ceilPct 7 100 = 7 := by
  refine ⟨by decide, by decide, by decide, by decide, by decide, by decide, by decide,
    by decide⟩

lemma frameLoop_next_polls (env : Env) (chain : List Action) (cancelled : Nat → Bool)
    (f0 total : Nat) :
    ∀ (fs : List Nat) (st st' : LoopState),
      frameLoop env chain cancelled f0 total fs st = .next st' →
      st.polls ≤ st'.polls ∧ ∀ j, st.polls ≤ j → j < st'.polls → cancelled j = false := by
  intro fs
  induction fs with
  | nil =>
    intro st st' h
    unfold frameLoop at h
    cases h
    exact ⟨le_refl _, fun j h1 h2 => absurd h2 (by omega)⟩
  | cons f fs ih =>
    intro st st' h
    unfold frameLoop at h
    split at h
    · exact LoopExit.noConfusion h
    split at h
    · exact ih st st' h
    split at h
    · exact LoopExit.noConfusion h
    split at h
    · exact LoopExit.noConfusion h
    split at h
    · exact LoopExit.noConfusion h
    · rename_i hcanc
      have hrec := ih _ _ h
      refine ⟨by simp at hrec; omega, ?_⟩
      intro j h1 h2
      rcases Nat.lt_or_ge j (st.polls + 1) with hj | hj
      · have : j = st.polls := by omega
        subst this
        simpa using hcanc
      · exact hrec.2 j (by simpa using hj) h2

lemma frameLoop_next_spec (env : Env) (chain : List Action) (cancelled : Nat → Bool)
    (f0 total : Nat) :
    ∀ (fs : List Nat) (st st' : LoopState),
      frameLoop env chain cancelled f0 total fs st = .next st' →
      st'.modifiedIDs = st.modifiedIDs ++ fs.flatMap (frameIDsOf env) ∧
      st'.handled = st.handled ++ fs.flatMap (frameHandledOf env chain) := by
  intro fs
  induction fs with
  | nil =>
    intro st st' h
    unfold frameLoop at h
    cases h
    simp
  | cons f fs ih =>
    intro st st' h
    unfold frameLoop at h
    split at h
    · exact LoopExit.noConfusion h
    · rename_i fd hf
      split at h
      · rename_i hdel
        have hres := ih st st' h
        constructor
        · rw [hres.1]
          simp [frameIDsOf, hf, hdel]
        · rw [hres.2]
          simp [frameHandledOf, hf, hdel]
      · rename_i hdel
        split at h
        · exact LoopExit.noConfusion h
        · rename_i sts hsts
          split at h
          · exact LoopExit.noConfusion h
          · rename_i out hrun
            split at h
            · exact LoopExit.noConfusion h
            · have hres := ih _ _ h
              simp only at hres
              constructor
              · rw [hres.1]
                simp [frameIDsOf, hf, hdel, hsts, List.append_assoc]
              · rw [hres.2]
                simp [frameHandledOf, hf, hdel, hsts, hrun, List.append_assoc]

lemma run_is_finalize (env : Env) (chain : List Action)
    (ap : List (List (String × String))) (f0 f1 : Nat) (cancelled : Nat → Bool)
    (h : env.logResult = .ok ()) :
    ∃ st c cl ec err,
      runSingleFrameChain env chain ap f0 f1 cancelled = finalize chain st c cl ec err := by
  unfold runSingleFrameChain
  rw [h]
  dsimp only
  split
  · exact ⟨_, _, _, _, _, rfl⟩
  · split
    · exact ⟨_, _, _, _, _, rfl⟩
    · split
      · exact ⟨_, _, _, _, _, rfl⟩
      · exact ⟨_, _, _, _, _, rfl⟩
      · split
        · exact ⟨_, _, _, _, _, rfl⟩
        · exact ⟨_, _, _, _, _, rfl⟩

lemma run_commit_spec (env : Env) (chain : List Action)
    (ap : List (List (String × String))) (f0 f1 : Nat) (cancelled : Nat → Bool)
    (ci : CommitInfo)
    (h : (runSingleFrameChain env chain ap f0 f1 cancelled).committed = some ci) :
    ci.modifiedIDs = (frameRange f0 f1).flatMap (frameIDsOf env) ∧
    ci.handled = (frameRange f0 f1).flatMap (frameHandledOf env chain) ∧
    ci.carried = env.exported.shapes.filter (carryPred ci.modifiedIDs) ∧
    ci.shapes = ci.handled ++ ci.carried ∧
    ci.tracks = env.exported.tracks ∧
    ci.tags = env.exported.tags := by
  unfold runSingleFrameChain at h
  split at h
  · simp at h
  · split at h
    · simp [finalize] at h
    · split at h
      · simp [finalize] at h
      · split at h
        · simp [finalize] at h
        · simp [finalize] at h
        · rename_i st hloop
          split at h
          · simp [finalize] at h
          · simp only [finalize] at h
            cases h
            have hspec := frameLoop_next_spec env chain cancelled f0 (f1 + 1 - f0)
              (frameRange f0 f1) initState st hloop
            have hm : st.modifiedIDs = (frameRange f0 f1).flatMap (frameIDsOf env) := by
              simpa [initState] using hspec.1
            have hh : st.handled = (frameRange f0 f1).flatMap (frameHandledOf env chain) := by
              simpa [initState] using hspec.2
            refine ⟨?_, ?_, ?_, ?_, ?_, ?_⟩ <;> simp [mkCommitInfo, hm, hh]

lemma run_commit_run_eq (env : Env) (chain : List Action)
    (ap : List (List (String × String))) (f0 f1 : Nat) (cancelled : Nat → Bool)
    (ci : CommitInfo)
    (h : (runSingleFrameChain env chain ap f0 f1 cancelled).committed = some ci) :
    ∃ st, frameLoop env chain cancelled f0 (f1 + 1 - f0) (frameRange f0 f1) initState =
        .next st ∧
      cancelled 0 = false ∧ cancelled st.polls = false ∧
      runSingleFrameChain env chain ap f0 f1 cancelled =
        finalize chain (commitState st) (some (mkCommitInfo env st)) true true none := by
  unfold runSingleFrameChain at h ⊢
  split at h
  · simp at h
  · rename_i heqlog
    split at h
    · simp [finalize] at h
    · rename_i hc0
      split at h
      · simp [finalize] at h
      · rename_i heqinit
        split at h
        · simp [finalize] at h
        · simp [finalize] at h
        · rename_i st heqloop
          split at h
          · simp [finalize] at h
          · rename_i hcst
            refine ⟨st, heqloop, by simpa using hc0, by simpa using hcst, ?_⟩
            rw [if_neg hc0, if_neg hcst]

lemma run_commit_polls (env : Env) (chain : List Action)
    (ap : List (List (String × String))) (f0 f1 : Nat) (cancelled : Nat → Bool)
    (ci : CommitInfo)
    (h : (runSingleFrameChain env chain ap f0 f1 cancelled).committed = some ci) :
    ∀ j < (runSingleFrameChain env chain ap f0 f1 cancelled).polls, cancelled j = false := by
  obtain ⟨st, hloop, h0, hcst, heq⟩ := run_commit_run_eq env chain ap f0 f1 cancelled ci h
  have hpolls := frameLoop_next_polls env chain cancelled f0 (f1 + 1 - f0)
    (frameRange f0 f1) initState st hloop
  intro j hj
  rw [heq] at hj
  simp only [finalize, commitState] at hj
  rcases Nat.lt_or_ge j 1 with hj0 | hj1
  · have hje : j = 0 := by omega
    subst hje
    exact h0
  · rcases Nat.lt_or_ge j st.polls with hjm | hjt
    · exact hpolls.2 j (by simpa [initState] using hj1) hjm
    · have hje : j = st.polls := by omega
      subst hje
      exact hcst

lemma run_cleared_eq (env : Env) (chain : List Action)
    (ap : List (List (String × String))) (f0 f1 : Nat) (cancelled : Nat → Bool) :
    (runSingleFrameChain env chain ap f0 f1 cancelled).cleared =
      (runSingleFrameChain env chain ap f0 f1 cancelled).committed.isSome := by
  unfold runSingleFrameChain
  split
  · rfl
  · split
    · rfl
    · split
      · rfl
      · split
        · rfl
        · rfl
        · split
          · rfl
          · rfl

lemma carryPred_iff {mids : List Int} {s : Shape} {n : Int} (hn : s.clientID = some n) :
    carryPred mids s = true ↔ n ∉ mids := by
  simp [carryPred, hn]

lemma carryPred_none {mids : List Int} {s : Shape} (hn : s.clientID = none) :
    carryPred mids s = false := by
  simp [carryPred, hn]

lemma frameHandledOf_nil (env : Env) (f : Nat) :
    frameHandledOf env [] f = (frameLocalShapes env f).map stripID := by
  unfold frameHandledOf frameLocalShapes
  generalize env.frames f = r
  generalize env.states f = r2
  cases r with
  | error e => rfl
  | ok fd =>
    dsimp only
    rcases Bool.eq_false_or_eq_true fd.deleted with hdel | hdel
    · rw [hdel]
      simp
    · rw [hdel]
      simp only [Bool.false_eq_true, if_false]
      cases r2 with
      | error e => rfl
      | ok sts => rfl

lemma frameHandledOf_discard (env : Env) (f : Nat) :
    frameHandledOf env [removeFilteredShapes] f = [] := by
  unfold frameHandledOf
  generalize env.frames f = r
  generalize env.states f = r2
  cases r with
  | error e => rfl
  | ok fd =>
    dsimp only
    rcases Bool.eq_false_or_eq_true fd.deleted with hdel | hdel
    · rw [hdel]
      simp
    · rw [hdel]
      simp only [Bool.false_eq_true, if_false]
      cases r2 with
      | error e => rfl
      | ok sts => rfl

lemma frameLocalShapes_clientID {env : Env} {f : Nat} {s : Shape}
    (h : s ∈ frameLocalShapes env f) : s.clientID.isSome = true := by
  unfold frameLocalShapes at h
  revert h
  generalize env.frames f = r
  generalize env.states f = r2
  cases r with
  | error e => simp
  | ok fd =>
    dsimp only
    rcases Bool.eq_false_or_eq_true fd.deleted with hdel | hdel
    · rw [hdel]
      simp
    · rw [hdel]
      simp only [Bool.false_eq_true, if_false]
      cases r2 with
      | error e => simp
      | ok sts =>
        intro h
        have hm := (List.mem_filter.mp h).2
        unfold shapeMatches at hm
        cases hcid : s.clientID with
        | none => rw [hcid] at hm; simp at hm
        | some n => rfl

/-- C6: `registerAction` throws `ArgumentError` when the candidate is
not an instance of the action base class or when its name (compared by
case-sensitive string equality) already belongs to a registered action;
on such a failure no new registry is produced, so the registry retains
only the first action registered under that name; on success the action
is appended, preserving registration order. -/
theorem c6_register (registry : List Action) :
    (∀ v, registerAction registry (.notAnAction v) =
      .error (.argumentError "Provided action is not instance of BaseSingleFrameAction")) ∧
    (∀ a, a.name ∈ registry.map Action.name →
      registerAction registry (.action a) =
        .error (.argumentError "Action name must be unique")) ∧
    (∀ a, a.name ∉ registry.map Action.name →
      registerAction registry (.action a) = .ok (registry ++ [a])) ∧
    (∀ a b, b.name = a.name →
      registerAction (registry ++ [a]) (.action b) =
        .error (.argumentError "Action name must be unique")) := by
  refine ⟨fun v => rfl, ?_, ?_, ?_⟩
  · intro a ha
    simp [registerAction, ha]
  · intro a ha
    simp [registerAction, ha]
  · intro a b hb
    simp [registerAction, hb]

/-- Witness for C6: the duplicate registration of the built-in action
fails, a fresh registration succeeds, and a non-action is rejected. -/
theorem c6_register_witness :
    registerAction initialRegistry (.notAnAction 0) =
      .error (.argumentError "Provided action is not instance of BaseSingleFrameAction") ∧
    registerAction initialRegistry (.action removeFilteredShapes) =
      .error (.argumentError "Action name must be unique") ∧
    registerAction [] (.action removeFilteredShapes) = .ok initialRegistry := by
  refine ⟨(c6_register initialRegistry).1 0,
    (c6_register initialRegistry).2.1 removeFilteredShapes ?_,
    (c6_register []).2.2.1 removeFilteredShapes ?_⟩
  · simp [initialRegistry]
  · simp

/-- C4 counterexample: a caller-supplied empty string against the
declared numeric default "5" resolves to the number `0` (JavaScript
`ToNumber` of the empty string), not `NaN` as the claim states. -/
theorem c4_counterexample :
    resolveParameters (some [("p", { type := .number, values := [], defaultValue := "5" })])
        [("p", "")] = [("p", ParamValue.num (JSNum.val 0))] ∧
    JSNum.val 0 ≠ JSNum.nan := by
  exact ⟨by decide, by decide⟩

/-- C4 (amended): a null schema yields an empty parameter map; the
resolved map has exactly the declared parameter names (caller keys
outside the schema are ignored); every declared parameter resolves to
the caller-supplied value when present and the declared default
otherwise, coerced through JavaScript `ToNumber` when the declared kind
is numeric — under which a non-numeric string such as "abc" resolves to
`NaN` while the empty string resolves to `0`, not `NaN`. -/
theorem c4_resolver :
    (∀ s, resolveParameters none s = []) ∧
    (∀ decls s, (resolveParameters (some decls) s).map Prod.fst = decls.map Prod.fst) ∧
    (∀ (decls : List (String × ParamDecl)) (s : List (String × String)) nm d,
      (nm, d) ∈ decls →
      (nm, if d.type = ActionParameterType.number
           then ParamValue.num (toNumber ((s.lookup nm).getD d.defaultValue))
           else ParamValue.str ((s.lookup nm).getD d.defaultValue)) ∈
        resolveParameters (some decls) s) ∧
    toNumber "" = JSNum.val 0 ∧ toNumber "abc" = JSNum.nan := by
  refine ⟨fun s => rfl, ?_, ?_, by decide, by decide⟩
  · intro decls s
    simp [resolveParameters]
  · intro decls s nm d hmem
    exact List.mem_map_of_mem (fun entry : String × ParamDecl =>
      (entry.1, if entry.2.type = ActionParameterType.number
        then ParamValue.num (toNumber ((s.lookup entry.1).getD entry.2.defaultValue))
        else ParamValue.str ((s.lookup entry.1).getD entry.2.defaultValue))) hmem

/-- Witness for C4 (amended): the numeric parameter "p" with default
"5" and no caller value resolves to the number 5. -/
theorem c4_resolver_witness :
    ("p", ParamDecl.mk .number [] "5") ∈ [("p", ParamDecl.mk .number [] "5")] ∧
    ("p", ParamValue.num (JSNum.val 5)) ∈
      resolveParameters (some [("p", ParamDecl.mk .number [] "5")]) [] := by
  refine ⟨by simp, ?_⟩
  have h := c4_resolver.2.2.1 [("p", ParamDecl.mk .number [] "5")] [] "p"
    (ParamDecl.mk .number [] "5") (by simp)
  have he : toNumber ((List.lookup "p" ([] : List (String × String))).getD "5") =
      JSNum.val 5 := by decide
  simpa [he] using h

/-- C2: if the cancellation predicate answers `true` at any checkpoint
the run actually polls, the run returns without calling `clear` or
`import` on the annotation store, so the store's annotations are
untouched; in particular a `true` answer at the very first checkpoint
(poll 0, before any frame is processed) commits nothing. -/
theorem c2_cancel_no_commit (env : Env) (chain : List Action)
    (ap : List (List (String × String))) (f0 f1 : Nat) (cancelled : Nat → Bool)
    (h : ∃ i < (runSingleFrameChain env chain ap f0 f1 cancelled).polls, cancelled i = true) :
    (runSingleFrameChain env chain ap f0 f1 cancelled).committed = none ∧
    (runSingleFrameChain env chain ap f0 f1 cancelled).cleared = false := by
  obtain ⟨i, hi, hc⟩ := h
  have hnone : (runSingleFrameChain env chain ap f0 f1 cancelled).committed = none := by
    cases hcom : (runSingleFrameChain env chain ap f0 f1 cancelled).committed with
    | none => rfl
    | some ci =>
      have hf := run_commit_polls env chain ap f0 f1 cancelled ci hcom i hi
      rw [hf] at hc
      cases hc
  refine ⟨hnone, ?_⟩
  rw [run_cleared_eq, hnone]
  rfl

/-- Witness for C2: with a predicate that always answers `true`, the
run over `envId` performs poll 0 and commits nothing. -/
theorem c2_cancel_no_commit_witness :
    (∃ i < (runSingleFrameChain envId [] [] 0 0 (fun _ => true)).polls,
      (fun _ : Nat => true) i = true) ∧
    (runSingleFrameChain envId [] [] 0 0 (fun _ => true)).committed = none ∧
    (runSingleFrameChain envId [] [] 0 0 (fun _ => true)).cleared = false :=
  ⟨⟨0, by decide, rfl⟩,
   c2_cancel_no_commit envId [] [] 0 0 (fun _ => true) ⟨0, by decide, rfl⟩⟩

/-- C5 counterexample: when the initial audit-log call (a collaborator
call placed before the `try` block) rejects, the run terminates with an
error but `destroy` is never invoked on the chain's one action and no
`Finalizing / 100` notification is emitted — against the claim that
this happens on every termination path. -/
theorem c5_counterexample :
    (runSingleFrameChain envLogFail [removeFilteredShapes] [] 0 0 (fun _ => false)).destroyed
      = [] ∧
    (runSingleFrameChain envLogFail [removeFilteredShapes] [] 0 0 (fun _ => false)).progress
      = [] ∧
    List.map Action.name [removeFilteredShapes] = ["Remove filtered shapes"] ∧
    (runSingleFrameChain envLogFail [removeFilteredShapes] [] 0 0 (fun _ => false)).error =
      some "audit log rejected" := by
  refine ⟨by decide, by decide, rfl, by decide⟩

/-- C5 (amended): on every termination path reached after the initial
audit-log call succeeds — successful completion, cancellation at any
checkpoint, or an error raised by an action's `init`/`run` or by the
frame-data/state collaborators — `destroy` is invoked exactly once per
chain position and the final progress notification is
`Finalizing / 100`.  (If the audit-log call itself rejects, the
`finally` block is never entered and neither happens.) -/
theorem c5_cleanup (env : Env) (chain : List Action)
    (ap : List (List (String × String))) (f0 f1 : Nat) (cancelled : Nat → Bool)
    (h : env.logResult = .ok ()) :
    (runSingleFrameChain env chain ap f0 f1 cancelled).destroyed = chain.map Action.name ∧
    (runSingleFrameChain env chain ap f0 f1 cancelled).progress.getLast? =
      some ("Finalizing", 100) := by
  obtain ⟨st, c, cl, ec, err, heq⟩ := run_is_finalize env chain ap f0 f1 cancelled h
  rw [heq]
  exact ⟨rfl, List.getLast?_concat _⟩

/-- Witness for C5 (amended): a successful one-action run over `envId`
destroys exactly that action and ends its progress with
`Finalizing / 100`. -/
theorem c5_cleanup_witness :
    envId.logResult = .ok () ∧
    ((runSingleFrameChain envId [removeFilteredShapes] [] 0 0 (fun _ => false)).destroyed =
        [removeFilteredShapes].map Action.name ∧
      (runSingleFrameChain envId [removeFilteredShapes] [] 0 0
        (fun _ => false)).progress.getLast? = some ("Finalizing", 100)) :=
  ⟨rfl, c5_cleanup envId [removeFilteredShapes] [] 0 0 (fun _ => false) rfl⟩


/-- C1 counterexample: with the built-in discard action, snapshot shape
`sA` is handled on processed frame 0 yet appears zero times in the
committed collection — so a snapshot shape need not appear exactly once
(its appearance as a "processed result" depends on the actions). -/
theorem c1_counterexample :
    sA ∈ envId.exported.shapes ∧
    (runSingleFrameChain envId [removeFilteredShapes] [] 0 0 (fun _ => false)).committed =
      some ciDiscard ∧
    ciDiscard.shapes.count sA = 0 := by
  refine ⟨by decide, by decide, by decide⟩

/-- C1 (amended): for every run that commits, every snapshot shape with
an integer clientID is routed exactly one way: the committed collection
is the handled buffer followed by the carry-over; a shape whose
clientID is in the handled-id set is never re-emitted by the carry-over
pass (what survives of it is whatever the chain produced), while a
shape whose clientID is absent from the set is appended unchanged by
the carry-over pass exactly as often as it occurs in the snapshot —
never both ways. -/
theorem c1_partition (env : Env) (chain : List Action)
    (ap : List (List (String × String))) (f0 f1 : Nat) (cancelled : Nat → Bool)
    (ci : CommitInfo) (s : Shape) (n : Int)
    (hci : (runSingleFrameChain env chain ap f0 f1 cancelled).committed = some ci)
    (hs : s ∈ env.exported.shapes) (hn : s.clientID = some n) :
    ci.shapes = ci.handled ++ ci.carried ∧
    (n ∈ ci.modifiedIDs → s ∉ ci.carried) ∧
    (n ∉ ci.modifiedIDs →
      ci.carried.count s = env.exported.shapes.count s ∧ s ∈ ci.carried) := by
  obtain ⟨hm, hh, hcarr, hshapes, _, _⟩ :=
    run_commit_spec env chain ap f0 f1 cancelled ci hci
  refine ⟨hshapes, ?_, ?_⟩
  · intro hmem hcontra
    rw [hcarr] at hcontra
    have hp := (List.mem_filter.mp hcontra).2
    exact (carryPred_iff hn).mp hp hmem
  · intro hnot
    have hp : carryPred ci.modifiedIDs s = true := (carryPred_iff hn).mpr hnot
    constructor
    · rw [hcarr]
      exact List.count_filter hp
    · rw [hcarr]
      exact List.mem_filter.mpr ⟨hs, hp⟩

/-- Witness for C1 (amended): in the committed empty-chain run over
`envId`, the untouched shape `sB` (clientID 2 not handled) is carried
over exactly once, and the commit splits as handled ++ carried. -/
theorem c1_partition_witness :
    (runSingleFrameChain envId [] [] 0 0 (fun _ => false)).committed = some ciId ∧
    (ciId.shapes = ciId.handled ++ ciId.carried ∧
      ((2 : Int) ∈ ciId.modifiedIDs → sB ∉ ciId.carried) ∧
      ((2 : Int) ∉ ciId.modifiedIDs →
        ciId.carried.count sB = envId.exported.shapes.count sB ∧ sB ∈ ciId.carried)) :=
  ⟨by decide, c1_partition envId [] [] 0 0 (fun _ => false) ciId sB 2
    (by decide) (by decide) rfl⟩

/-- C3 counterexample: frame 0 is flagged deleted, yet its shape `sA`
is present in the committed collection — the carry-over pass preserves
it, against the claim that deleted frames' shapes are removed from the
final output entirely. -/
theorem c3_counterexample :
    envDel.frames 0 = .ok fdDel ∧
    fdDel.deleted = true ∧
    (runSingleFrameChain envDel [] [] 0 0 (fun _ => false)).committed = some ciDel ∧
    sA ∈ ciDel.shapes := by
  refine ⟨rfl, rfl, by decide, by decide⟩

/-- C3 (amended): in every committed run, frames flagged deleted are
skipped: they contribute nothing to the handled buffer or the
handled-id set (which equal exactly the per-frame contributions of the
non-deleted frames of the range); consequently a snapshot shape with an
integer clientID gathered on no processed frame is not removed but
carried over unchanged into the committed collection. -/
theorem c3_deleted_frames (env : Env) (chain : List Action)
    (ap : List (List (String × String))) (f0 f1 : Nat) (cancelled : Nat → Bool)
    (ci : CommitInfo)
    (hci : (runSingleFrameChain env chain ap f0 f1 cancelled).committed = some ci) :
    ci.modifiedIDs = (frameRange f0 f1).flatMap (frameIDsOf env) ∧
    ci.handled = (frameRange f0 f1).flatMap (frameHandledOf env chain) ∧
    (∀ f fd, env.frames f = .ok fd → fd.deleted = true →
      frameIDsOf env f = [] ∧ frameHandledOf env chain f = []) ∧
    (∀ s n, s ∈ env.exported.shapes → s.clientID = some n →
      n ∉ ci.modifiedIDs → s ∈ ci.carried ∧ s ∈ ci.shapes) := by
  obtain ⟨hm, hh, hcarr, hshapes, _, _⟩ :=
    run_commit_spec env chain ap f0 f1 cancelled ci hci
  refine ⟨hm, hh, ?_, ?_⟩
  · intro f fd hf hdel
    constructor
    · simp [frameIDsOf, hf, hdel]
    · simp [frameHandledOf, hf, hdel]
  · intro s n hs hn hnot
    have hp : carryPred ci.modifiedIDs s = true := (carryPred_iff hn).mpr hnot
    have hcmem : s ∈ ci.carried := by
      rw [hcarr]
      exact List.mem_filter.mpr ⟨hs, hp⟩
    exact ⟨hcmem, by rw [hshapes]; exact List.mem_append.mpr (Or.inr hcmem)⟩

/-- Witness for C3 (amended): the committed run over `envDel` (frame 0
deleted) has an empty handled-id set and carries `sA` into the commit. -/
theorem c3_deleted_frames_witness :
    (runSingleFrameChain envDel [] [] 0 0 (fun _ => false)).committed = some ciDel ∧
    (frameIDsOf envDel 0 = [] ∧ frameHandledOf envDel [] 0 = []) ∧
    (sA ∈ ciDel.carried ∧ sA ∈ ciDel.shapes) :=
  ⟨by decide,
   (c3_deleted_frames envDel [] [] 0 0 (fun _ => false) ciDel (by decide)).2.2.1
     0 fdDel rfl rfl,
   (c3_deleted_frames envDel [] [] 0 0 (fun _ => false) ciDel (by decide)).2.2.2
     sA 1 (by decide) rfl (by decide)⟩

/-- C7 counterexample: a full non-cancelled empty-chain run over
`envId` commits `sA` with its `id` field stripped by `omit(shape, 'id')`,
so the committed collection does not contain the same shapes as the
original snapshot. -/
theorem c7_counterexample :
    (runSingleFrameChain envId [] [] 0 0 (fun _ => false)).committed = some ciId ∧
    sA ∈ envId.exported.shapes ∧
    sA ∉ ciId.shapes ∧
    ciId.shapes ≠ envId.exported.shapes := by
  refine ⟨by decide, by decide, by decide, by decide⟩

/-- C7 (amended): with a chain of zero actions, each frame's shapes
pass through the chain unchanged, and every committed run's handled
buffer consists of exactly the non-deleted frames' filtered snapshot
shapes with their `id` field stripped, followed by the carry-over of
the untouched shapes — the shapes are otherwise unmodified, but not
identical records. -/
theorem c7_empty_chain (env : Env)
    (ap : List (List (String × String))) (f0 f1 : Nat) (cancelled : Nat → Bool)
    (ci : CommitInfo)
    (hci : (runSingleFrameChain env [] ap f0 f1 cancelled).committed = some ci) :
    (∀ shapes fd, chainRun [] shapes fd = .ok shapes) ∧
    ci.handled = (frameRange f0 f1).flatMap
      (fun f => (frameLocalShapes env f).map stripID) ∧
    ci.shapes = ci.handled ++ env.exported.shapes.filter (carryPred ci.modifiedIDs) := by
  obtain ⟨hm, hh, hcarr, hshapes, _, _⟩ :=
    run_commit_spec env [] ap f0 f1 cancelled ci hci
  refine ⟨fun shapes fd => rfl, ?_, ?_⟩
  · rw [hh]
    have he : frameHandledOf env [] = fun f => (frameLocalShapes env f).map stripID :=
      funext (frameHandledOf_nil env)
    rw [he]
  · rw [hshapes, hcarr]

/-- Witness for C7 (amended): the committed empty-chain run over
`envId` satisfies the pass-through characterization. -/
theorem c7_empty_chain_witness :
    (runSingleFrameChain envId [] [] 0 0 (fun _ => false)).committed = some ciId ∧
    ciId.handled = (frameRange 0 0).flatMap
      (fun f => (frameLocalShapes envId f).map stripID) :=
  ⟨by decide, (c7_empty_chain envId [] 0 0 (fun _ => false) ciId (by decide)).2.1⟩

/-- C8: the built-in discard action's `run` returns an empty collection
for every input; in every committed run of `[removeFilteredShapes]`
alone the handled buffer is empty, the handled-id set is exactly the
filtered ids of the processed (non-deleted) frames, and a snapshot
shape with integer clientID does not survive when it was filtered in on
a processed frame while it is preserved verbatim otherwise. -/
theorem c8_discard (env : Env)
    (ap : List (List (String × String))) (f0 f1 : Nat) (cancelled : Nat → Bool)
    (ci : CommitInfo)
    (hci : (runSingleFrameChain env [removeFilteredShapes] ap f0 f1 cancelled).committed =
      some ci) :
    (∀ shapes fd, removeFilteredShapes.run shapes fd = .ok []) ∧
    ci.handled = [] ∧
    ci.modifiedIDs = (frameRange f0 f1).flatMap (frameIDsOf env) ∧
    (∀ s n, s ∈ env.exported.shapes → s.clientID = some n →
      (n ∈ ci.modifiedIDs → s ∉ ci.shapes) ∧
      (n ∉ ci.modifiedIDs → s ∈ ci.shapes)) := by
  obtain ⟨hm, hh, hcarr, hshapes, _, _⟩ :=
    run_commit_spec env [removeFilteredShapes] ap f0 f1 cancelled ci hci
  have hhe : ci.handled = [] := by
    rw [hh]
    have he : frameHandledOf env [removeFilteredShapes] = fun _ => ([] : List Shape) :=
      funext (frameHandledOf_discard env)
    rw [he]
    simp
  refine ⟨fun shapes fd => rfl, hhe, hm, ?_⟩
  intro s n hs hn
  constructor
  · intro hmem hcontra
    rw [hshapes, hhe] at hcontra
    simp only [List.nil_append] at hcontra
    rw [hcarr] at hcontra
    exact (carryPred_iff hn).mp (List.mem_filter.mp hcontra).2 hmem
  · intro hnot
    rw [hshapes, hhe]
    simp only [List.nil_append]
    rw [hcarr]
    exact List.mem_filter.mpr ⟨hs, (carryPred_iff hn).mpr hnot⟩

/-- Witness for C8: over `envId`, the filtered-in shape `sA` does not
survive the discard run while the untouched shape `sB` is preserved. -/
theorem c8_discard_witness :
    (runSingleFrameChain envId [removeFilteredShapes] [] 0 0 (fun _ => false)).committed =
      some ciDiscard ∧
    ((1 : Int) ∈ ciDiscard.modifiedIDs → sA ∉ ciDiscard.shapes) ∧
    ((2 : Int) ∉ ciDiscard.modifiedIDs → sB ∈ ciDiscard.shapes) :=
  ⟨by decide,
   ((c8_discard envId [] 0 0 (fun _ => false) ciDiscard (by decide)).2.2.2 sA 1
     (by decide) rfl).1,
   ((c8_discard envId [] 0 0 (fun _ => false) ciDiscard (by decide)).2.2.2 sB 2
     (by decide) rfl).2⟩

/-- C10: in every committed run, the carry-over pass re-emits an
unhandled snapshot shape only under `Number.isInteger(clientID)`: a
snapshot shape without an integer clientID is never appended by the
carry-over pass, is never part of any frame-local working collection,
and with an empty chain is therefore silently omitted from the
committed collection. -/
theorem c10_missing_clientID (env : Env) (chain : List Action)
    (ap : List (List (String × String))) (f0 f1 : Nat) (cancelled : Nat → Bool)
    (ci : CommitInfo) (s : Shape)
    (hci : (runSingleFrameChain env chain ap f0 f1 cancelled).committed = some ci)
    (_hs : s ∈ env.exported.shapes) (hn : s.clientID = none) :
    s ∉ ci.carried ∧
    (∀ f, s ∉ frameLocalShapes env f) ∧
    (chain = [] → s ∉ ci.shapes) := by
  obtain ⟨hm, hh, hcarr, hshapes, _, _⟩ :=
    run_commit_spec env chain ap f0 f1 cancelled ci hci
  have h1 : s ∉ ci.carried := by
    rw [hcarr]
    intro hmem
    have hp := (List.mem_filter.mp hmem).2
    rw [carryPred_none hn] at hp
    cases hp
  have h2 : ∀ f, s ∉ frameLocalShapes env f := by
    intro f hmem
    have := frameLocalShapes_clientID hmem
    rw [hn] at this
    cases this
  refine ⟨h1, h2, ?_⟩
  intro hchain hmem
  subst hchain
  rw [hshapes] at hmem
  rcases List.mem_append.mp hmem with hmem | hmem
  · rw [hh] at hmem
    rw [List.mem_flatMap] at hmem
    obtain ⟨f, _, hmem⟩ := hmem
    rw [frameHandledOf_nil] at hmem
    obtain ⟨t, ht, hts⟩ := List.mem_map.mp hmem
    have hiso := frameLocalShapes_clientID ht
    have hcid : t.clientID = s.clientID := by
      rw [← hts]
      rfl
    rw [hcid, hn] at hiso
    cases hiso
  · exact h1 hmem

/-- Witness for C10: the clientID-less snapshot shape `sC` of `envId`
is omitted from the committed empty-chain run. -/
theorem c10_missing_clientID_witness :
    (runSingleFrameChain envId [] [] 0 0 (fun _ => false)).committed = some ciId ∧
    sC ∈ envId.exported.shapes ∧
    sC ∉ ciId.carried ∧
    sC ∉ ciId.shapes :=
  ⟨by decide, by decide,
   (c10_missing_clientID envId [] [] 0 0 (fun _ => false) ciId sC
     (by decide) (by decide) rfl).1,
   (c10_missing_clientID envId [] [] 0 0 (fun _ => false) ciId sC
     (by decide) (by decide) rfl).2.2 rfl⟩


end Cvat
